import Mathlib

/-!
Verification of the GnuCash GSettings preferences backend
(`src/app-utils/gnc-gsettings.c`) against its natural-language
specification.

The C file is embedded shallowly: the process-wide globals
(`gsettings_prefix`, `schema_hash`, the signal-handler table of the
provider, the stored values, and the error log written by `PERR` /
`PWARN` / `g_return_if_fail`) become an explicit state record
`GSState`; the settings provider (GLib GSettings / GObject signals) is
modelled from its documented behaviour through an environment record
`GSEnv` carrying the compiled schema catalog (which schema names exist,
which keys each schema declares, per-key defaults and writability).
Each Lean definition carries the name of the C function it embeds.
-/

set_option autoImplicit false

namespace GncGSettings

/-- Values stored in the settings database (the subset of GVariant the
claims need). -/
inductive GVal where
  | vI (n : Int)
  | vS (s : String)
  | vB (b : Bool)
deriving DecidableEq, Repr

/-- Model of a `GSettings *` object as handed out by `g_settings_new`:
an object identity (`sid`), the fully qualified schema name it was
created for, and whether the schema exists (`G_IS_SETTINGS` holds). -/
structure Schema where
  sid : Nat
  name : String
  valid : Bool
deriving DecidableEq, Repr

/-- One GObject signal-handler registration held by the provider:
handler id, instance (the `sid` of the `GSettings` object it is
connected to), the numeric signal id (nonzero for real signals such as
"changed"), the signal detail quark (`none` models quark 0, i.e. no
detail), the callback and the user-data (modelled as numeric pointer
values). -/
structure Handler where
  hid : Nat
  inst : Nat
  sigid : Nat
  detail : Option String
  func : Nat
  data : Nat
deriving DecidableEq, Repr

/-- The mutable process state of gnc-gsettings.c together with the
provider-side state it drives: the `schema_hash` GHashTable (assoc
list from full schema name to cached `GSettings` object), the counter
producing fresh object identities, the stored key values (newest entry
first), the connected signal handlers, and the error log (newest
first). -/
structure GSState where
  schemaHash : List (String × Schema)
  nextId : Nat
  store : List ((String × String) × GVal)
  handlers : List Handler
  log : List String
deriving DecidableEq, Repr

/-- The read-only environment: the value of the `gsettings_prefix`
global and the compiled schema information the GSettings provider
consults (`validSchema` = the schema exists, `schemaKeys` = keys
declared by a schema source, `defaultInt`/`defaultStr` = schema
defaults, `writableInt` = whether the provider accepts a write, e.g.
the value lies in the schema-declared range). -/
structure GSEnv where
  gsPfx : String
  validSchema : String → Bool
  schemaKeys : String → List String
  defaultInt : String → String → Int
  defaultStr : String → String → String
  writableInt : String → String → Int → Bool

/-- Lookup in an association list, as `g_hash_table_lookup` behaves on
`schema_hash` (string keys, byte-wise equality). -/
def lookupAssoc {α : Type} : List (String × α) → String → Option α
  | [], _ => none
  | (k, v) :: rest, key => if k == key then some v else lookupAssoc rest key

/-- First stored value for `(name, key)`, as the provider reads the
store (newest write wins). -/
def storeGet : List ((String × String) × GVal) → String → String → Option GVal
  | [], _, _ => none
  | (nk, v) :: rest, name, key =>
      if nk == (name, key) then some v else storeGet rest name key

/-- Record a write of `(name, key)` in the store. -/
def storeSet (store : List ((String × String) × GVal)) (name key : String)
    (v : GVal) : List ((String × String) × GVal) :=
  ((name, key), v) :: store

/-- Remove every stored value for `(name, key)`; models
`g_settings_reset` dropping the user value so reads fall back to the
schema default. -/
def storeErase (store : List ((String × String) × GVal)) (name key : String) :
    List ((String × String) × GVal) :=
  store.filter (fun e => !(e.1 == (name, key)))

/-- Byte-wise check that the first list begins with the second, the
loop behind `g_str_has_prefix` (gnc-gsettings.c:139). -/
def cstrHasPfx : List Char → List Char → Bool
  | _, [] => true
  | [], _ :: _ => false
  | c :: cs, p :: ps => c == p && cstrHasPfx cs ps

/-- Models `g_str_has_prefix (s, p)`: does `s` start with `p`? -/
def gStrHasPfx (s p : String) : Bool := cstrHasPfx s.data p.data

/-- Models `gnc_gsettings_get_prefix` (gnc-gsettings.c:125-129): read the
`gsettings_prefix` global. -/
def gnc_gsettings_get_pfx (env : GSEnv) : String := env.gsPfx

/-- Models `gnc_gsettings_normalize_schema_name` (gnc-gsettings.c:131-146).
`none` models a NULL `name` argument.  A NULL name yields a copy of the
prefix; a name that already starts with the prefix is copied; otherwise
`g_strjoin (".", prefix, name, NULL)` produces `prefix ++ "." ++ name`.
Allocation/ownership is outside the model. -/
def gnc_gsettings_normalize_schema_name (env : GSEnv) (name : Option String) :
    String :=
  match name with
  | none => gnc_gsettings_get_pfx env
  | some n =>
      if gStrHasPfx n (gnc_gsettings_get_pfx env) then n
      else gnc_gsettings_get_pfx env ++ "." ++ n

/-- Models `gnc_gsettings_get_schema_ptr` (gnc-gsettings.c:89-112): normalize
the name, look it up in `schema_hash`; on a miss call `g_settings_new`
(here: mint a fresh object whose validity the provider decides), insert
into the hash only when `G_IS_SETTINGS` holds, otherwise `PWARN` and
leave the hash untouched.  The (possibly invalid) object is returned
either way, exactly as the C function returns `gset`. -/
def gnc_gsettings_get_schema_ptr (env : GSEnv) (st : GSState)
    (schemaStr : Option String) : Schema × GSState :=
  let full := gnc_gsettings_normalize_schema_name env schemaStr
  match lookupAssoc st.schemaHash full with
  | some gset => (gset, st)
  | none =>
      let gset : Schema := ⟨st.nextId, full, env.validSchema full⟩
      if gset.valid then
        (gset, { st with
                  schemaHash := (full, gset) :: st.schemaHash,
                  nextId := st.nextId + 1 })
      else
        (gset, { st with
                  nextId := st.nextId + 1,
                  log := ("Ignoring attempt to access unknown gsettings schema "
                          ++ full) :: st.log })

/-- Models `g_settings_list_keys` on a settings object: the declared key set
of its schema, or `none` (NULL) when the object is not a valid
`GSettings`. -/
def g_settings_list_keys (env : GSEnv) (settings : Schema) :
    Option (List String) :=
  if settings.valid then some (env.schemaKeys settings.name) else none

/-- Models `gnc_gsettings_is_valid_key` (gnc-gsettings.c:60-87): false for a
non-`GSettings` object, otherwise scan `g_settings_list_keys` for a
`g_strcmp0`-equal entry. -/
def gnc_gsettings_is_valid_key (env : GSEnv) (settings : Schema)
    (key : String) : Bool :=
  if !settings.valid then false
  else
    match g_settings_list_keys env settings with
    | none => false
    | some keys => keys.any (fun k => key == k)

/-- Models `g_settings_get_int`: the stored integer for the key, or the schema
default when no (integer) user value is stored. -/
def g_settings_get_int (env : GSEnv) (st : GSState) (name key : String) :
    Int :=
  match storeGet st.store name key with
  | some (GVal.vI n) => n
  | _ => env.defaultInt name key

/-- Models `g_settings_get_string`: the stored string for the key, or the
schema default. -/
def g_settings_get_string (env : GSEnv) (st : GSState) (name key : String) :
    String :=
  match storeGet st.store name key with
  | some (GVal.vS s) => s
  | _ => env.defaultStr name key

/-- Models `g_settings_set_int`: the provider persists the write and returns
TRUE when it accepts the value, otherwise it returns FALSE and stores
nothing. -/
def g_settings_set_int (env : GSEnv) (st : GSState) (name key : String)
    (value : Int) : Bool × GSState :=
  if env.writableInt name key value then
    (true, { st with store := storeSet st.store name key (GVal.vI value) })
  else
    (false, st)

/-- Models `g_settings_reset`: drop the user value so the key reads as its
default again. -/
def g_settings_reset (st : GSState) (name key : String) : GSState :=
  { st with store := storeErase st.store name key }

/-- The message a failed `g_return_if_fail` / `g_return_val_if_fail`
emits (modelled as one fixed critical line). -/
def gReturnMsg : String := "g_return_if_fail assertion failed"

/-- Append the critical of a failed `g_return` check. -/
def logCritical (st : GSState) : GSState :=
  { st with log := gReturnMsg :: st.log }

/-- Models `PERR ("Invalid key %s for schema %s", key, schema)`. -/
def logInvalidKey (st : GSState) (key schema : String) : GSState :=
  { st with log := ("Invalid key " ++ key ++ " for schema " ++ schema)
                    :: st.log }

/-- Models `PERR ("Unable to set value for key %s in schema %s", key, schema)`. -/
def logUnableSet (st : GSState) (key schema : String) : GSState :=
  { st with log := ("Unable to set value for key " ++ key ++ " in schema "
                    ++ schema) :: st.log }

/-- Models `gnc_gsettings_get_int` (gnc-gsettings.c:308-322). -/
def gnc_gsettings_get_int (env : GSEnv) (st : GSState) (schema key : String) :
    Int × GSState :=
  let r := gnc_gsettings_get_schema_ptr env st (some schema)
  if !r.1.valid then (0, logCritical r.2)
  else if gnc_gsettings_is_valid_key env r.1 key then
    (g_settings_get_int env r.2 r.1.name key, r.2)
  else (0, logInvalidKey r.2 key schema)

/-- Models `gnc_gsettings_get_string` (gnc-gsettings.c:382-396); the C
function returns NULL (`none`) on both error paths. -/
def gnc_gsettings_get_string (env : GSEnv) (st : GSState)
    (schema key : String) : Option String × GSState :=
  let r := gnc_gsettings_get_schema_ptr env st (some schema)
  if !r.1.valid then (none, logCritical r.2)
  else if gnc_gsettings_is_valid_key env r.1 key then
    (some (g_settings_get_string env r.2 r.1.name key), r.2)
  else (none, logInvalidKey r.2 key schema)

/-- Models `gnc_gsettings_set_int` (gnc-gsettings.c:324-343). -/
def gnc_gsettings_set_int (env : GSEnv) (st : GSState) (schema key : String)
    (value : Int) : Bool × GSState :=
  let r := gnc_gsettings_get_schema_ptr env st (some schema)
  if !r.1.valid then (false, logCritical r.2)
  else if gnc_gsettings_is_valid_key env r.1 key then
    let w := g_settings_set_int env r.2 r.1.name key value
    if w.1 then (true, w.2) else (false, logUnableSet w.2 key schema)
  else (false, logInvalidKey r.2 key schema)

/-- Models `gnc_gsettings_reset` (gnc-gsettings.c:495-506). -/
def gnc_gsettings_reset (env : GSEnv) (st : GSState) (schema key : String) :
    GSState :=
  let r := gnc_gsettings_get_schema_ptr env st (some schema)
  if !r.1.valid then logCritical r.2
  else if gnc_gsettings_is_valid_key env r.1 key then
    g_settings_reset r.2 r.1.name key
  else logInvalidKey r.2 key schema

/-- Models `gnc_gsettings_reset_schema` (gnc-gsettings.c:508-526): list the
keys of the resolved schema object (NULL for an invalid object) and
call `gnc_gsettings_reset` on the original short name for each. -/
def gnc_gsettings_reset_schema (env : GSEnv) (st : GSState)
    (schema : String) : GSState :=
  let r := gnc_gsettings_get_schema_ptr env st (some schema)
  match g_settings_list_keys env r.1 with
  | none => r.2
  | some keys => keys.foldl (fun s k => gnc_gsettings_reset env s schema k) r.2

/-- The declared key set `gnc_gsettings_reset_schema` iterates over
(empty when the schema object is invalid, i.e. `keys` is NULL). -/
def declaredKeys (env : GSEnv) (st : GSState) (schema : String) :
    List String :=
  match g_settings_list_keys env
      (gnc_gsettings_get_schema_ptr env st (some schema)).1 with
  | none => []
  | some keys => keys

/-! ### Callback registry (`gnc_gsettings_remove_cb_by_func`) -/

/-- GObject match-flag constants (`GSignalMatchType`). -/
def G_SIGNAL_MATCH_ID : Nat := 1
/-- Models `G_SIGNAL_MATCH_DETAIL` bit. -/
def G_SIGNAL_MATCH_DETAIL : Nat := 2
/-- Models `G_SIGNAL_MATCH_CLOSURE` bit. -/
def G_SIGNAL_MATCH_CLOSURE : Nat := 4
/-- Models `G_SIGNAL_MATCH_FUNC` bit. -/
def G_SIGNAL_MATCH_FUNC : Nat := 8
/-- Models `G_SIGNAL_MATCH_DATA` bit. -/
def G_SIGNAL_MATCH_DATA : Nat := 16

/-- The C logical-OR on integers: `a || b` evaluates to 1 when either
operand is nonzero, else 0. -/
def cLogicalOr (a b : Nat) : Nat := if a ≠ 0 ∨ b ≠ 0 then 1 else 0

/-- The mask expression gnc-gsettings.c:208 actually passes to
`g_signal_handlers_disconnect_matched`:
`G_SIGNAL_MATCH_DETAIL || G_SIGNAL_MATCH_FUNC || G_SIGNAL_MATCH_DATA`
with the C logical-OR operator (left associated). -/
def removeMatchMask : Nat :=
  cLogicalOr (cLogicalOr G_SIGNAL_MATCH_DETAIL G_SIGNAL_MATCH_FUNC)
    G_SIGNAL_MATCH_DATA

/-- GObject handler matching: each set mask bit demands equality of the
corresponding component (signal id / detail quark / callback /
user-data).  `none` as a detail models quark 0. -/
def handlerMatches (mask sigid : Nat) (detail : Option String)
    (fn dat : Nat) (h : Handler) : Bool :=
  (!(mask.testBit 0) || (h.sigid == sigid)) &&
  (!(mask.testBit 1) || (h.detail == detail)) &&
  (!(mask.testBit 3) || (h.func == fn)) &&
  (!(mask.testBit 4) || (h.data == dat))

/-- Models `g_signal_handlers_disconnect_matched`: disconnect every handler on
the instance that satisfies the mask criteria; return how many were
removed. -/
def g_signal_handlers_disconnect_matched (st : GSState) (inst : Nat)
    (mask sigid : Nat) (detail : Option String) (fn dat : Nat) :
    Nat × GSState :=
  let matching := fun h : Handler =>
    h.inst == inst && handlerMatches mask sigid detail fn dat h
  ((st.handlers.filter matching).length,
   { st with handlers := st.handlers.filter (fun h => !(matching h)) })

/-- Models `g_quark_from_string`: `none` (a NULL string) maps to quark 0,
modelled as `none`; interned strings compare as the strings do. -/
def g_quark_from_string (s : Option String) : Option String := s

/-- Models `gnc_gsettings_remove_cb_by_func` (gnc-gsettings.c:185-217):
resolve the schema, guard on `G_IS_SETTINGS` and on a non-NULL `func`,
build the signal string ("changed" for an absent/empty key,
"changed::key" for a valid key, NULL for an invalid one), then call
`g_signal_handlers_disconnect_matched` with the mask of line 208 and
`signal_id` 0, passing the quark of the whole signal string as the
detail.  `fn`/`dat` are the callback and user-data pointers (0 models
NULL). -/
def gnc_gsettings_remove_cb_by_func (env : GSEnv) (st : GSState)
    (schema : Option String) (key : Option String) (fn dat : Nat) :
    GSState :=
  let r := gnc_gsettings_get_schema_ptr env st schema
  if !r.1.valid then logCritical r.2
  else if fn == 0 then logCritical r.2
  else
    let signal : Option String :=
      match key with
      | none => some "changed"
      | some k =>
          if k = "" then some "changed"
          else if gnc_gsettings_is_valid_key env r.1 k then
            some ("changed::" ++ k)
          else none
    (g_signal_handlers_disconnect_matched r.2 r.1.sid removeMatchMask 0
      (g_quark_from_string signal) fn dat).2

/-- The detach criterion the specification describes for
`deregisterByFunction(S, K, fn, u)` (spec §4.4/§8): a registration on
the schema object whose signal detail equals the detail built from `K`
(no detail for an absent or empty key, the key itself otherwise), whose
callback equals `fn` and whose user-data equals `u`.  Written from the
spec's words for comparison with the code. -/
def specMatchesAllThree (ptr : Schema) (key : Option String)
    (fn dat : Nat) (h : Handler) : Bool :=
  h.inst == ptr.sid &&
  (h.detail == (match key with
                | none => none
                | some k => if k = "" then none else some k)) &&
  h.func == fn && h.data == dat

/-! ### Migration driver (`gnc_gsettings_migrate_from_gconf`) -/

/-- The externally visible steps `gnc_gsettings_migrate_from_gconf`
performs, in order.  `ok` flags record whether the underlying call
succeeded (a parse of a missing file yields NULL, carried along).
`closeOutput true` marks an `fclose` applied to a NULL `FILE*`
(undefined behaviour in C). -/
inductive MigrEvent where
  | evalPrepare
  | parseStylesheet (path : String) (ok : Bool)
  | parseInput (path : String) (ok : Bool)
  | applyTransform (ok : Bool)
  | openOutput (path : String) (ok : Bool)
  | saveResult
  | closeOutput (fileWasNull : Bool)
  | loadScript (path : String)
  | evalRunMigration
  | evalCleanup
deriving DecidableEq, Repr

/-- The filesystem facts the migration driver runs against: `HOME`, the
package data directory, and whether each required input is present and
usable (stylesheet parseable, manifest parseable, output file
openable). -/
structure MigrEnv where
  home : String
  pkgdatadir : String
  stylesheetOk : Bool
  manifestOk : Bool
  outOpenOk : Bool

/-- Models `gnc_gsettings_migrate_from_gconf` (gnc-gsettings.c:619-665) as the
trace of its calls.  The C function is straight-line code: it never
tests `stylesheetptr`, `inputxml` or `outfile`, so every step happens
unconditionally in this order; a missing input only shows up as a NULL
flowing into the next call. -/
def gnc_gsettings_migrate_from_gconf (env : MigrEnv) : List MigrEvent :=
  let stylesheet := env.pkgdatadir ++ "/" ++ "make-prefs-migration-script.xsl"
  let input := env.pkgdatadir ++ "/" ++ "migratable-prefs.xml"
  let migrDir := env.home ++ "/" ++ ".gnc-migration-tmp"
  let output := migrDir ++ "/" ++ "migrate-prefs-user.scm"
  [ MigrEvent.evalPrepare,
    MigrEvent.parseStylesheet stylesheet env.stylesheetOk,
    MigrEvent.parseInput input env.manifestOk,
    MigrEvent.applyTransform (env.stylesheetOk && env.manifestOk),
    MigrEvent.openOutput output env.outOpenOk,
    MigrEvent.saveResult,
    MigrEvent.closeOutput (!env.outOpenOk),
    MigrEvent.loadScript output,
    MigrEvent.evalRunMigration,
    MigrEvent.evalCleanup ]

/-! ### External entity loader (`xsltprocExternalEntityLoader`) -/

/-- The loop of gnc-gsettings.c:574-578: `lastsegment` starts at the
whole URL and is moved past every '/' encountered. -/
def lastSegLoop (seg : List Char) : List Char → List Char
  | [] => seg
  | c :: rest => lastSegLoop (if c == '/' then rest else seg) rest

/-- The last '/'-separated segment of a URL (the whole URL when it has
no '/'). -/
def lastSegment (url : String) : String := ⟨lastSegLoop url.data url.data⟩

/-- Models `g_build_filename (g_getenv ("HOME"), ".gnc-migration-tmp", NULL)`. -/
def migrationTmpDir (home : String) : String :=
  home ++ "/" ++ ".gnc-migration-tmp"

/-- Environment of the entity loader: `HOME` and the default libxml
entity resolver installed before the migration (`none` = it yields no
input for that URL). -/
structure EntityLoaderEnv where
  home : String
  defaultLoader : String → Option Nat

/-- Result of one call to the custom loader: the parser input obtained
(if any) and the fallback URL the loader constructed (`none` when the
default resolver already succeeded and no fallback was built). -/
structure EntityLoadResult where
  input : Option Nat
  fallbackURL : Option String
deriving DecidableEq, Repr

/-- Models `xsltprocExternalEntityLoader` (gnc-gsettings.c:562-616): try the
default resolver on the URL as given; if it produces no input, rebuild
the URL as `<HOME>/.gnc-migration-tmp/<lastSegment>` and try the
default resolver on that.  (Warning suppression/restoration has no
bearing on which input is returned and is not modelled.) -/
def xsltprocExternalEntityLoader (env : EntityLoaderEnv) (url : String) :
    EntityLoadResult :=
  let tmpdir := migrationTmpDir env.home
  match env.defaultLoader url with
  | some ret => { input := some ret, fallbackURL := none }
  | none =>
      let newURL := tmpdir ++ "/" ++ lastSegment url
      { input := env.defaultLoader newURL, fallbackURL := some newURL }

/-! ### Concrete instances used by witnesses and counterexamples -/

/-- A concrete environment: prefix `org.ex.app`, one known schema
`org.ex.app.general` declaring the key `window.width` (int, default
800, writes accepted up to 10000). -/
def envEx : GSEnv :=
  { gsPfx := "org.ex.app"
    validSchema := fun n => n == "org.ex.app.general"
    schemaKeys := fun _ => ["window.width"]
    defaultInt := fun _ _ => 800
    defaultStr := fun _ _ => ""
    writableInt := fun _ _ v => decide (v ≤ 10000) }

/-- The empty starting state. -/
def stEmpty : GSState :=
  { schemaHash := [], nextId := 0, store := [], handlers := [], log := [] }

/-- The cached settings object for `org.ex.app.general` as the first
resolution from `stEmpty` creates it. -/
def ptrGeneral : Schema := ⟨0, "org.ex.app.general", true⟩

/-- A registration on `ptrGeneral` for signal "changed" (signal id 1)
with detail `window.width`, callback 5, user-data 9: exactly what
`gnc_gsettings_register_cb (general, "window.width", 5, 9)` leaves
behind. -/
def hdlWidth : Handler :=
  { hid := 1, inst := 0, sigid := 1, detail := some "window.width",
    func := 5, data := 9 }

/-- State in which `org.ex.app.general` is cached and `hdlWidth` is the
only registration. -/
def stWithHandler : GSState :=
  { schemaHash := [("org.ex.app.general", ptrGeneral)], nextId := 1,
    store := [], handlers := [hdlWidth], log := [] }

/-- A concrete environment whose schema `org.ex.app.general` declares
two keys `a` and `b`. -/
def envTwoKeys : GSEnv :=
  { gsPfx := "org.ex.app"
    validSchema := fun n => n == "org.ex.app.general"
    schemaKeys := fun _ => ["a", "b"]
    defaultInt := fun _ _ => 0
    defaultStr := fun _ _ => ""
    writableInt := fun _ _ _ => true }

/-- A concrete environment whose schema `org.ex.app.general` declares
no keys at all. -/
def envNoKeys : GSEnv :=
  { gsPfx := "org.ex.app"
    validSchema := fun n => n == "org.ex.app.general"
    schemaKeys := fun _ => []
    defaultInt := fun _ _ => 0
    defaultStr := fun _ _ => ""
    writableInt := fun _ _ _ => true }

/-- A starting state holding stored values for the two declared keys
and for an unrelated schema. -/
def stTwoKeys : GSState :=
  { schemaHash := [], nextId := 0,
    store := [(("org.ex.app.general", "a"), GVal.vI 1),
              (("org.ex.app.general", "b"), GVal.vI 2),
              (("other", "a"), GVal.vI 3)],
    handlers := [], log := [] }

/-- A concrete entity-loader environment whose default resolver never
yields an input. -/
def envLoad : EntityLoaderEnv :=
  { home := "/home/u", defaultLoader := fun _ => none }

/-- A concrete migration environment whose stylesheet is missing but
whose other inputs are fine. -/
def envMigrNoStylesheet : MigrEnv :=
  { home := "/home/u", pkgdatadir := "/usr/share/gnucash",
    stylesheetOk := false, manifestOk := true, outOpenOk := true }

/-- A concrete migration environment in which the scratch directory is
absent, so the output file cannot be opened. -/
def envMigrNoOutput : MigrEnv :=
  { home := "/home/u", pkgdatadir := "/usr/share/gnucash",
    stylesheetOk := true, manifestOk := true, outOpenOk := false }

/-! ### Helper lemmas -/

theorem get_schema_ptr_hit (env : GSEnv) (st : GSState) (s : Option String)
    (p : Schema)
    (h : lookupAssoc st.schemaHash (gnc_gsettings_normalize_schema_name env s)
          = some p) :
    gnc_gsettings_get_schema_ptr env st s = (p, st) := by
  simp [gnc_gsettings_get_schema_ptr, h]

theorem get_schema_ptr_miss_valid (env : GSEnv) (st : GSState)
    (s : Option String)
    (h : lookupAssoc st.schemaHash (gnc_gsettings_normalize_schema_name env s)
          = none)
    (hv : env.validSchema (gnc_gsettings_normalize_schema_name env s) = true) :
    gnc_gsettings_get_schema_ptr env st s
      = (⟨st.nextId, gnc_gsettings_normalize_schema_name env s, true⟩,
         { st with
            schemaHash := (gnc_gsettings_normalize_schema_name env s,
              (⟨st.nextId, gnc_gsettings_normalize_schema_name env s, true⟩
                : Schema)) :: st.schemaHash,
            nextId := st.nextId + 1 }) := by
  simp [gnc_gsettings_get_schema_ptr, h, hv]

theorem get_schema_ptr_miss_invalid (env : GSEnv) (st : GSState)
    (s : Option String)
    (h : lookupAssoc st.schemaHash (gnc_gsettings_normalize_schema_name env s)
          = none)
    (hv : env.validSchema (gnc_gsettings_normalize_schema_name env s)
          = false) :
    gnc_gsettings_get_schema_ptr env st s
      = (⟨st.nextId, gnc_gsettings_normalize_schema_name env s, false⟩,
         { st with
            nextId := st.nextId + 1,
            log := ("Ignoring attempt to access unknown gsettings schema "
                    ++ gnc_gsettings_normalize_schema_name env s)
                   :: st.log }) := by
  simp [gnc_gsettings_get_schema_ptr, h, hv]

theorem get_schema_ptr_store_eq (env : GSEnv) (st : GSState)
    (s : Option String) :
    (gnc_gsettings_get_schema_ptr env st s).2.store = st.store := by
  unfold gnc_gsettings_get_schema_ptr
  cases h : lookupAssoc st.schemaHash
      (gnc_gsettings_normalize_schema_name env s) with
  | none => simp [h]; split <;> simp
  | some p => simp [h]

theorem get_schema_ptr_handlers_eq (env : GSEnv) (st : GSState)
    (s : Option String) :
    (gnc_gsettings_get_schema_ptr env st s).2.handlers = st.handlers := by
  unfold gnc_gsettings_get_schema_ptr
  cases h : lookupAssoc st.schemaHash
      (gnc_gsettings_normalize_schema_name env s) with
  | none => simp [h]; split <;> simp
  | some p => simp [h]

theorem get_schema_ptr_log_of_valid (env : GSEnv) (st : GSState)
    (s : Option String)
    (h : (gnc_gsettings_get_schema_ptr env st s).1.valid = true) :
    (gnc_gsettings_get_schema_ptr env st s).2.log = st.log := by
  revert h
  unfold gnc_gsettings_get_schema_ptr
  cases h : lookupAssoc st.schemaHash
      (gnc_gsettings_normalize_schema_name env s) with
  | none =>
      cases hv : env.validSchema
          (gnc_gsettings_normalize_schema_name env s) <;> simp [h, hv]
  | some p => simp [h]

theorem get_schema_ptr_cached_of_valid (env : GSEnv) (st : GSState)
    (s : Option String)
    (h : (gnc_gsettings_get_schema_ptr env st s).1.valid = true) :
    lookupAssoc (gnc_gsettings_get_schema_ptr env st s).2.schemaHash
        (gnc_gsettings_normalize_schema_name env s)
      = some (gnc_gsettings_get_schema_ptr env st s).1 := by
  revert h
  unfold gnc_gsettings_get_schema_ptr
  cases h : lookupAssoc st.schemaHash
      (gnc_gsettings_normalize_schema_name env s) with
  | none =>
      cases hv : env.validSchema
          (gnc_gsettings_normalize_schema_name env s) <;>
        simp [h, hv, lookupAssoc]
  | some p => simp [h]

theorem get_schema_ptr_idem_of_valid (env : GSEnv) (st : GSState)
    (s : Option String)
    (h : (gnc_gsettings_get_schema_ptr env st s).1.valid = true) :
    gnc_gsettings_get_schema_ptr env
        (gnc_gsettings_get_schema_ptr env st s).2 s
      = gnc_gsettings_get_schema_ptr env st s := by
  have hc := get_schema_ptr_cached_of_valid env st s h
  rw [get_schema_ptr_hit env _ s _ hc]

theorem is_valid_key_of_mem (env : GSEnv) (p : Schema) (k : String)
    (hp : p.valid = true) (hk : k ∈ env.schemaKeys p.name) :
    gnc_gsettings_is_valid_key env p k = true := by
  simp [gnc_gsettings_is_valid_key, g_settings_list_keys, hp,
    List.any_eq_true]
  exact hk

theorem reset_cached (env : GSEnv) (st : GSState) (schema k : String)
    (p : Schema)
    (hc : lookupAssoc st.schemaHash
            (gnc_gsettings_normalize_schema_name env (some schema))
          = some p)
    (hp : p.valid = true) :
    gnc_gsettings_reset env st schema k
      = if gnc_gsettings_is_valid_key env p k then
          g_settings_reset st p.name k
        else logInvalidKey st k schema := by
  simp [gnc_gsettings_reset, get_schema_ptr_hit env st (some schema) p hc, hp]

theorem reset_declared_cached (env : GSEnv) (st : GSState)
    (schema k : String) (p : Schema)
    (hc : lookupAssoc st.schemaHash
            (gnc_gsettings_normalize_schema_name env (some schema))
          = some p)
    (hp : p.valid = true) (hk : k ∈ env.schemaKeys p.name) :
    gnc_gsettings_reset env st schema k
      = { st with store := storeErase st.store p.name k } := by
  rw [reset_cached env st schema k p hc hp,
    if_pos (is_valid_key_of_mem env p k hp hk)]
  rfl

theorem fold_reset_closed (env : GSEnv) (schema : String) (p : Schema)
    (hp : p.valid = true) :
    ∀ (keys : List String) (st : GSState),
      lookupAssoc st.schemaHash
          (gnc_gsettings_normalize_schema_name env (some schema))
        = some p →
      (∀ k ∈ keys, k ∈ env.schemaKeys p.name) →
      keys.foldl (fun s k => gnc_gsettings_reset env s schema k) st
        = { st with
              store := keys.foldl (fun str k => storeErase str p.name k)
                        st.store } := by
  intro keys
  induction keys with
  | nil => intro st _ _; rfl
  | cons k rest ih =>
      intro st hc hks
      have hk : k ∈ env.schemaKeys p.name := hks k (by simp)
      have hstep := reset_declared_cached env st schema k p hc hp hk
      simp only [List.foldl_cons, hstep]
      exact ih { st with store := storeErase st.store p.name k } hc
        (fun x hx => hks x (by simp [hx]))

theorem storeErase_comm (str : List ((String × String) × GVal))
    (n k1 k2 : String) :
    storeErase (storeErase str n k1) n k2
      = storeErase (storeErase str n k2) n k1 := by
  induction str with
  | nil => rfl
  | cons e t ih =>
      by_cases h1 : e.1 == (n, k1) <;> by_cases h2 : e.1 == (n, k2) <;>
        simp [storeErase, h1, h2] at ih ⊢ <;> simpa [storeErase] using ih

theorem foldl_comm_perm {α β : Type} {f : β → α → β}
    (hf : ∀ b x y, f (f b x) y = f (f b y) x) :
    ∀ {l₁ l₂ : List α}, l₁.Perm l₂ → ∀ b : β, l₁.foldl f b = l₂.foldl f b := by
  intro l₁ l₂ h
  induction h with
  | nil => intro b; rfl
  | cons x _ ih => intro b; simp only [List.foldl_cons]; exact ih _
  | swap x y l => intro b; simp only [List.foldl_cons, hf]
  | trans _ _ ih₁ ih₂ => intro b; rw [ih₁, ih₂]

theorem reset_first_eq (env : GSEnv) (st : GSState) (schema k : String)
    (h : (gnc_gsettings_get_schema_ptr env st (some schema)).1.valid
          = true) :
    gnc_gsettings_reset env st schema k
      = gnc_gsettings_reset env
          (gnc_gsettings_get_schema_ptr env st (some schema)).2 schema k := by
  unfold gnc_gsettings_reset
  rw [get_schema_ptr_idem_of_valid env st (some schema) h]

theorem fold_reset_start_eq (env : GSEnv) (st : GSState) (schema : String)
    (keys : List String)
    (h : (gnc_gsettings_get_schema_ptr env st (some schema)).1.valid
          = true) :
    (keys.foldl (fun s k => gnc_gsettings_reset env s schema k) st).store
      = (keys.foldl (fun s k => gnc_gsettings_reset env s schema k)
          (gnc_gsettings_get_schema_ptr env st (some schema)).2).store := by
  cases keys with
  | nil =>
      simp [get_schema_ptr_store_eq env st (some schema)]
  | cons k rest =>
      simp only [List.foldl_cons]
      rw [reset_first_eq env st schema k h]

/-! ### Claim theorems -/

/-- Claim C2, counterexample: with the non-empty prefix `org.ex.app`,
normalizing the empty (present but empty) name does not return the
prefix alone, contradicting the claim that an absent or empty name
yields the Prefix: the code only special-cases NULL, so `""` falls into
the join branch and yields `org.ex.app.`. -/
theorem claim_C2_counterexample :
    ¬ (gnc_gsettings_normalize_schema_name envEx (some "")
        = gnc_gsettings_get_pfx envEx) := by
  decide

/-- Claim C2 (amended): `normalize` returns the Prefix alone when the
name is absent (NULL); a copy of the name when the name starts with the
Prefix; and `Prefix + "." + name` otherwise — in particular a present
but empty name with a non-empty Prefix yields `Prefix + "."`, not the
Prefix alone.  (Allocation/ownership of the result is outside the
model.) -/
theorem claim_C2_amended (env : GSEnv) (n : String) :
    gnc_gsettings_normalize_schema_name env none
      = gnc_gsettings_get_pfx env ∧
    (gStrHasPfx n (gnc_gsettings_get_pfx env) = true →
       gnc_gsettings_normalize_schema_name env (some n) = n) ∧
    (gStrHasPfx n (gnc_gsettings_get_pfx env) = false →
       gnc_gsettings_normalize_schema_name env (some n)
         = gnc_gsettings_get_pfx env ++ "." ++ n) ∧
    (gnc_gsettings_get_pfx env ≠ "" →
       gnc_gsettings_normalize_schema_name env (some "")
         = gnc_gsettings_get_pfx env ++ ".") := by
  refine ⟨rfl, ?_, ?_, ?_⟩
  · intro h
    simp [gnc_gsettings_normalize_schema_name, h]
  · intro h
    simp [gnc_gsettings_normalize_schema_name, h]
  · intro h
    have hd : ∃ c cs, (gnc_gsettings_get_pfx env).data = c :: cs := by
      cases hc : (gnc_gsettings_get_pfx env).data with
      | nil =>
          exact absurd (String.ext hc) h
      | cons c cs => exact ⟨c, cs, rfl⟩
    obtain ⟨c, cs, hc⟩ := hd
    have hno : gStrHasPfx "" (gnc_gsettings_get_pfx env) = false := by
      simp [gStrHasPfx, hc, cstrHasPfx]
    simp [gnc_gsettings_normalize_schema_name, hno]

/-- Witness for the amended claim C2 at the concrete prefix
`org.ex.app`. -/
theorem claim_C2_witness :
    gnc_gsettings_normalize_schema_name envEx none = "org.ex.app" ∧
    gnc_gsettings_normalize_schema_name envEx (some "org.ex.application")
      = "org.ex.application" ∧
    gnc_gsettings_normalize_schema_name envEx (some "general")
      = "org.ex.app.general" ∧
    gnc_gsettings_normalize_schema_name envEx (some "") = "org.ex.app." :=
  ⟨(claim_C2_amended envEx "x").1,
   (claim_C2_amended envEx "org.ex.application").2.1 (by decide),
   by
     have h := (claim_C2_amended envEx "general").2.2.1 (by decide)
     simpa using h,
   by
     have h := (claim_C2_amended envEx "x").2.2.2 (by decide)
     simpa using h⟩

/-- Claim C9: normalization decides "already fully qualified" by a
plain string-prefix test with no dot-separator requirement: every name
whose initial characters equal the prefix is returned unchanged instead
of being joined with the prefix. -/
theorem claim_C9 (env : GSEnv) (n : String)
    (h : gStrHasPfx n (gnc_gsettings_get_pfx env) = true) :
    gnc_gsettings_normalize_schema_name env (some n) = n := by
  simp [gnc_gsettings_normalize_schema_name, h]

/-- Witness for claim C9 at prefix `org.ex.app` and the name
`org.ex.application`, which starts with the prefix without a dot
separator. -/
theorem claim_C9_witness :
    gStrHasPfx "org.ex.application" (gnc_gsettings_get_pfx envEx) = true ∧
    gnc_gsettings_normalize_schema_name envEx (some "org.ex.application")
      = "org.ex.application" :=
  ⟨by decide, claim_C9 envEx "org.ex.application" (by decide)⟩

/-- Claim C10: the custom external-entity resolver is insensitive to
the directory part of the URL: when the default resolver yields no
input for two URLs with equal last '/'-separated segments, the resolver
builds the identical fallback path `scratchDir + "/" + lastSegment` for
both, so its whole result agrees. -/
theorem claim_C10 (env : EntityLoaderEnv) (u1 u2 : String)
    (hseg : lastSegment u1 = lastSegment u2)
    (h1 : env.defaultLoader u1 = none)
    (h2 : env.defaultLoader u2 = none) :
    xsltprocExternalEntityLoader env u1
      = xsltprocExternalEntityLoader env u2 ∧
    (xsltprocExternalEntityLoader env u1).fallbackURL
      = some (migrationTmpDir env.home ++ "/" ++ lastSegment u1) := by
  constructor
  · simp [xsltprocExternalEntityLoader, h1, h2, hseg]
  · simp [xsltprocExternalEntityLoader, h1]

/-- Witness for claim C10 on two URLs with different directories and
the same file name. -/
theorem claim_C10_witness :
    xsltprocExternalEntityLoader envLoad "/usr/share/gnucash/prefs.xml"
      = xsltprocExternalEntityLoader envLoad "some/dir/prefs.xml" ∧
    (xsltprocExternalEntityLoader envLoad
        "/usr/share/gnucash/prefs.xml").fallbackURL
      = some "/home/u/.gnc-migration-tmp/prefs.xml" :=
  ⟨(claim_C10 envLoad "/usr/share/gnucash/prefs.xml" "some/dir/prefs.xml"
      (by decide) rfl rfl).1,
   by
     have h := (claim_C10 envLoad "/usr/share/gnucash/prefs.xml"
       "some/dir/prefs.xml" (by decide) rfl rfl).2
     simpa using h⟩

/-- Claim C3: once a valid schema has been obtained, resolving the same
name again returns the identical handle and leaves the state unchanged;
a failed resolution (unknown schema) inserts nothing into the catalog,
and a subsequent resolve of the same name consults the provider again
(the object it returns is minted fresh from the current counter). -/
theorem claim_C3 (env : GSEnv) (st : GSState) (x : String) :
    ((gnc_gsettings_get_schema_ptr env st (some x)).1.valid = true →
       gnc_gsettings_get_schema_ptr env
           (gnc_gsettings_get_schema_ptr env st (some x)).2 (some x)
         = gnc_gsettings_get_schema_ptr env st (some x)) ∧
    (lookupAssoc st.schemaHash
        (gnc_gsettings_normalize_schema_name env (some x)) = none →
     env.validSchema (gnc_gsettings_normalize_schema_name env (some x))
        = false →
       (gnc_gsettings_get_schema_ptr env st (some x)).1.valid = false ∧
       (gnc_gsettings_get_schema_ptr env st (some x)).2.schemaHash
         = st.schemaHash ∧
       (gnc_gsettings_get_schema_ptr env
           (gnc_gsettings_get_schema_ptr env st (some x)).2 (some x)).1.sid
         = (gnc_gsettings_get_schema_ptr env st (some x)).2.nextId) := by
  constructor
  · exact get_schema_ptr_idem_of_valid env st (some x)
  · intro hmiss hinv
    have h1 := get_schema_ptr_miss_invalid env st (some x) hmiss hinv
    refine ⟨by rw [h1], by rw [h1], ?_⟩
    have hmiss2 : lookupAssoc
        (gnc_gsettings_get_schema_ptr env st (some x)).2.schemaHash
        (gnc_gsettings_normalize_schema_name env (some x)) = none := by
      rw [h1]; exact hmiss
    have h2 := get_schema_ptr_miss_invalid env
      (gnc_gsettings_get_schema_ptr env st (some x)).2 (some x) hmiss2 hinv
    rw [h2]

/-- Witness for claim C3: resolving the known schema `general` twice
from the empty state, and resolving the unknown schema `nope`. -/
theorem claim_C3_witness :
    (gnc_gsettings_get_schema_ptr envEx
        (gnc_gsettings_get_schema_ptr envEx stEmpty (some "general")).2
        (some "general")
      = gnc_gsettings_get_schema_ptr envEx stEmpty (some "general")) ∧
    ((gnc_gsettings_get_schema_ptr envEx stEmpty (some "nope")).1.valid
        = false ∧
     (gnc_gsettings_get_schema_ptr envEx stEmpty (some "nope")).2.schemaHash
        = stEmpty.schemaHash ∧
     (gnc_gsettings_get_schema_ptr envEx
         (gnc_gsettings_get_schema_ptr envEx stEmpty (some "nope")).2
         (some "nope")).1.sid
        = (gnc_gsettings_get_schema_ptr envEx stEmpty
            (some "nope")).2.nextId) :=
  ⟨(claim_C3 envEx stEmpty "general").1 (by decide),
   (claim_C3 envEx stEmpty "nope").2 (by decide) (by decide)⟩

/-- Claim C4: the typed getters return the type's zero value (0 for
int, the absent string for the string getter) and report an error
whenever schema resolution fails or the key is not declared in the
schema; they forward to the provider exactly when both checks pass
(the check order resolution-then-key is visible in the branches). -/
theorem claim_C4 (env : GSEnv) (st : GSState) (schema key : String) :
    ((gnc_gsettings_get_schema_ptr env st (some schema)).1.valid = false →
       (gnc_gsettings_get_int env st schema key).1 = 0 ∧
       (gnc_gsettings_get_string env st schema key).1 = none ∧
       gReturnMsg ∈ (gnc_gsettings_get_int env st schema key).2.log) ∧
    ((gnc_gsettings_get_schema_ptr env st (some schema)).1.valid = true →
     gnc_gsettings_is_valid_key env
        (gnc_gsettings_get_schema_ptr env st (some schema)).1 key = false →
       (gnc_gsettings_get_int env st schema key).1 = 0 ∧
       (gnc_gsettings_get_string env st schema key).1 = none ∧
       ("Invalid key " ++ key ++ " for schema " ++ schema)
         ∈ (gnc_gsettings_get_int env st schema key).2.log) ∧
    ((gnc_gsettings_get_schema_ptr env st (some schema)).1.valid = true →
     gnc_gsettings_is_valid_key env
        (gnc_gsettings_get_schema_ptr env st (some schema)).1 key = true →
       (gnc_gsettings_get_int env st schema key)
         = (g_settings_get_int env
              (gnc_gsettings_get_schema_ptr env st (some schema)).2
              (gnc_gsettings_get_schema_ptr env st (some schema)).1.name key,
            (gnc_gsettings_get_schema_ptr env st (some schema)).2) ∧
       (gnc_gsettings_get_string env st schema key)
         = (some (g_settings_get_string env
              (gnc_gsettings_get_schema_ptr env st (some schema)).2
              (gnc_gsettings_get_schema_ptr env st (some schema)).1.name key),
            (gnc_gsettings_get_schema_ptr env st (some schema)).2)) := by
  refine ⟨?_, ?_, ?_⟩
  · intro h
    simp [gnc_gsettings_get_int, gnc_gsettings_get_string, h, logCritical]
  · intro h hk
    simp [gnc_gsettings_get_int, gnc_gsettings_get_string, h, hk,
      logInvalidKey]
  · intro h hk
    simp [gnc_gsettings_get_int, gnc_gsettings_get_string, h, hk]

/-- Witness for claim C4: unknown schema `nope`, misspelled key
`window.widht`, and the declared key `window.width` with default
800. -/
theorem claim_C4_witness :
    ((gnc_gsettings_get_int envEx stEmpty "nope" "window.width").1 = 0 ∧
     (gnc_gsettings_get_string envEx stEmpty "nope" "window.width").1
       = none ∧
     gReturnMsg
       ∈ (gnc_gsettings_get_int envEx stEmpty "nope" "window.width").2.log) ∧
    ((gnc_gsettings_get_int envEx stEmpty "general" "window.widht").1 = 0 ∧
     (gnc_gsettings_get_string envEx stEmpty "general" "window.widht").1
       = none ∧
     ("Invalid key " ++ "window.widht" ++ " for schema " ++ "general")
       ∈ (gnc_gsettings_get_int envEx stEmpty "general"
            "window.widht").2.log) ∧
    (gnc_gsettings_get_int envEx stEmpty "general" "window.width").1
      = 800 := by
  refine ⟨(claim_C4 envEx stEmpty "nope" "window.width").1 (by decide),
    (claim_C4 envEx stEmpty "general" "window.widht").2.1 (by decide)
      (by decide), ?_⟩
  have h := (claim_C4 envEx stEmpty "general" "window.width").2.2
    (by decide) (by decide)
  rw [h.1]
  decide

/-- Claim C5: the typed setter returns false and logs an error when
schema resolution fails or the key is invalid, leaving the store
untouched; when both checks pass it returns the provider's result, and
a provider-refused write returns false, is logged, and leaves the
store unchanged. -/
theorem claim_C5 (env : GSEnv) (st : GSState) (schema key : String)
    (v : Int) :
    ((gnc_gsettings_get_schema_ptr env st (some schema)).1.valid = false →
       (gnc_gsettings_set_int env st schema key v).1 = false ∧
       (gnc_gsettings_set_int env st schema key v).2.store = st.store ∧
       gReturnMsg ∈ (gnc_gsettings_set_int env st schema key v).2.log) ∧
    ((gnc_gsettings_get_schema_ptr env st (some schema)).1.valid = true →
     gnc_gsettings_is_valid_key env
        (gnc_gsettings_get_schema_ptr env st (some schema)).1 key = false →
       (gnc_gsettings_set_int env st schema key v).1 = false ∧
       (gnc_gsettings_set_int env st schema key v).2.store = st.store ∧
       ("Invalid key " ++ key ++ " for schema " ++ schema)
         ∈ (gnc_gsettings_set_int env st schema key v).2.log) ∧
    ((gnc_gsettings_get_schema_ptr env st (some schema)).1.valid = true →
     gnc_gsettings_is_valid_key env
        (gnc_gsettings_get_schema_ptr env st (some schema)).1 key = true →
       (gnc_gsettings_set_int env st schema key v).1
         = (g_settings_set_int env
              (gnc_gsettings_get_schema_ptr env st (some schema)).2
              (gnc_gsettings_get_schema_ptr env st (some schema)).1.name
              key v).1 ∧
       (gnc_gsettings_set_int env st schema key v).2.store
         = (g_settings_set_int env
              (gnc_gsettings_get_schema_ptr env st (some schema)).2
              (gnc_gsettings_get_schema_ptr env st (some schema)).1.name
              key v).2.store) ∧
    ((gnc_gsettings_get_schema_ptr env st (some schema)).1.valid = true →
     gnc_gsettings_is_valid_key env
        (gnc_gsettings_get_schema_ptr env st (some schema)).1 key = true →
     env.writableInt
        (gnc_gsettings_get_schema_ptr env st (some schema)).1.name key v
        = false →
       (gnc_gsettings_set_int env st schema key v).1 = false ∧
       (gnc_gsettings_set_int env st schema key v).2.store = st.store ∧
       ("Unable to set value for key " ++ key ++ " in schema " ++ schema)
         ∈ (gnc_gsettings_set_int env st schema key v).2.log) := by
  refine ⟨?_, ?_, ?_, ?_⟩
  · intro h
    simp [gnc_gsettings_set_int, h, logCritical,
      get_schema_ptr_store_eq env st (some schema)]
  · intro h hk
    simp [gnc_gsettings_set_int, h, hk, logInvalidKey,
      get_schema_ptr_store_eq env st (some schema)]
  · intro h hk
    by_cases hw : env.writableInt
        (gnc_gsettings_get_schema_ptr env st (some schema)).1.name key v <;>
      simp [gnc_gsettings_set_int, g_settings_set_int, h, hk, hw,
        logUnableSet]
  · intro h hk hw
    simp [gnc_gsettings_set_int, g_settings_set_int, h, hk, hw,
      logUnableSet, get_schema_ptr_store_eq env st (some schema)]

/-- Witness for claim C5: unknown schema, misspelled key, an accepted
write of 1024 and a refused write of 99999 (outside the declared
range of `envEx`). -/
theorem claim_C5_witness :
    ((gnc_gsettings_set_int envEx stEmpty "nope" "window.width" 100).1
       = false ∧
     (gnc_gsettings_set_int envEx stEmpty "nope" "window.width" 100).2.store
       = stEmpty.store ∧
     gReturnMsg ∈ (gnc_gsettings_set_int envEx stEmpty "nope"
        "window.width" 100).2.log) ∧
    ((gnc_gsettings_set_int envEx stEmpty "general" "window.widht" 100).1
       = false ∧
     (gnc_gsettings_set_int envEx stEmpty "general"
        "window.widht" 100).2.store = stEmpty.store ∧
     ("Invalid key " ++ "window.widht" ++ " for schema " ++ "general")
       ∈ (gnc_gsettings_set_int envEx stEmpty "general"
            "window.widht" 100).2.log) ∧
    ((gnc_gsettings_set_int envEx stEmpty "general" "window.width" 1024).1
       = true) ∧
    ((gnc_gsettings_set_int envEx stEmpty "general" "window.width" 99999).1
       = false ∧
     (gnc_gsettings_set_int envEx stEmpty "general"
        "window.width" 99999).2.store = stEmpty.store ∧
     ("Unable to set value for key " ++ "window.width" ++ " in schema "
        ++ "general")
       ∈ (gnc_gsettings_set_int envEx stEmpty "general"
            "window.width" 99999).2.log) := by
  refine ⟨(claim_C5 envEx stEmpty "nope" "window.width" 100).1 (by decide),
    (claim_C5 envEx stEmpty "general" "window.widht" 100).2.1 (by decide)
      (by decide),
    ?_,
    (claim_C5 envEx stEmpty "general" "window.width" 99999).2.2.2
      (by decide) (by decide) (by decide)⟩
  have h := (claim_C5 envEx stEmpty "general" "window.width" 1024).2.2.1
    (by decide) (by decide)
  rw [h.1]
  decide

/-- Claim C6: `gnc_gsettings_reset_schema` has exactly the effect on
the stored values of performing `gnc_gsettings_reset` once for each
declared key, it leaves the store untouched when the declared key set
is empty, and folding the resets in any permuted order produces the
same store. -/
theorem claim_C6 (env : GSEnv) (st : GSState) (schema : String) :
    (gnc_gsettings_reset_schema env st schema).store
      = ((declaredKeys env st schema).foldl
          (fun s k => gnc_gsettings_reset env s schema k) st).store ∧
    (declaredKeys env st schema = [] →
       (gnc_gsettings_reset_schema env st schema).store = st.store) ∧
    (∀ l2 : List String, (declaredKeys env st schema).Perm l2 →
       (l2.foldl (fun s k => gnc_gsettings_reset env s schema k) st).store
         = ((declaredKeys env st schema).foldl
             (fun s k => gnc_gsettings_reset env s schema k) st).store) := by
  cases hval : (gnc_gsettings_get_schema_ptr env st
      (some schema)).1.valid with
  | false =>
      have hlk : g_settings_list_keys env
          (gnc_gsettings_get_schema_ptr env st (some schema)).1 = none := by
        simp [g_settings_list_keys, hval]
      have hdk : declaredKeys env st schema = [] := by
        simp [declaredKeys, hlk]
      have hrs : gnc_gsettings_reset_schema env st schema
          = (gnc_gsettings_get_schema_ptr env st (some schema)).2 := by
        simp [gnc_gsettings_reset_schema, hlk]
      refine ⟨?_, fun _ => ?_, ?_⟩
      · rw [hrs, hdk]
        exact get_schema_ptr_store_eq env st (some schema)
      · rw [hrs]
        exact get_schema_ptr_store_eq env st (some schema)
      · intro l2 hp
        rw [hdk] at hp
        obtain rfl := hp.symm.eq_nil
        rw [hdk]
  | true =>
      have hlk : g_settings_list_keys env
            (gnc_gsettings_get_schema_ptr env st (some schema)).1
          = some (env.schemaKeys
              (gnc_gsettings_get_schema_ptr env st (some schema)).1.name) :=
        by simp [g_settings_list_keys, hval]
      have hdk : declaredKeys env st schema
          = env.schemaKeys
              (gnc_gsettings_get_schema_ptr env st (some schema)).1.name :=
        by simp [declaredKeys, hlk]
      have hrs : gnc_gsettings_reset_schema env st schema
          = (env.schemaKeys
              (gnc_gsettings_get_schema_ptr env st
                (some schema)).1.name).foldl
              (fun s k => gnc_gsettings_reset env s schema k)
              (gnc_gsettings_get_schema_ptr env st (some schema)).2 := by
        simp [gnc_gsettings_reset_schema, hlk]
      have hc := get_schema_ptr_cached_of_valid env st (some schema) hval
      refine ⟨?_, fun hnil => ?_, ?_⟩
      · rw [hrs, hdk]
        exact (fold_reset_start_eq env st schema _ hval).symm
      · rw [hdk] at hnil
        rw [hrs, hnil]
        exact get_schema_ptr_store_eq env st (some schema)
      · intro l2 hp
        rw [hdk] at hp
        rw [hdk, fold_reset_start_eq env st schema l2 hval,
          fold_reset_start_eq env st schema _ hval]
        rw [fold_reset_closed env schema
            (gnc_gsettings_get_schema_ptr env st (some schema)).1 hval l2
            (gnc_gsettings_get_schema_ptr env st (some schema)).2 hc
            (fun k hk => hp.mem_iff.mpr hk),
          fold_reset_closed env schema
            (gnc_gsettings_get_schema_ptr env st (some schema)).1 hval _
            (gnc_gsettings_get_schema_ptr env st (some schema)).2 hc
            (fun k hk => hk)]
        exact foldl_comm_perm
          (fun b x y => storeErase_comm b
            (gnc_gsettings_get_schema_ptr env st (some schema)).1.name x y)
          hp.symm
          (gnc_gsettings_get_schema_ptr env st (some schema)).2.store

/-- Witness for claim C6: a schema with keys `a` and `b` and stored
values for both (plus an unrelated entry), the empty-schema case, and
the reversed reset order. -/
theorem claim_C6_witness :
    (gnc_gsettings_reset_schema envTwoKeys stTwoKeys "general").store
      = ((declaredKeys envTwoKeys stTwoKeys "general").foldl
          (fun s k => gnc_gsettings_reset envTwoKeys s "general" k)
          stTwoKeys).store ∧
    (gnc_gsettings_reset_schema envNoKeys stTwoKeys "general").store
      = stTwoKeys.store ∧
    ((["b", "a"] : List String).foldl
        (fun s k => gnc_gsettings_reset envTwoKeys s "general" k)
        stTwoKeys).store
      = ((declaredKeys envTwoKeys stTwoKeys "general").foldl
          (fun s k => gnc_gsettings_reset envTwoKeys s "general" k)
          stTwoKeys).store :=
  ⟨(claim_C6 envTwoKeys stTwoKeys "general").1,
   (claim_C6 envNoKeys stTwoKeys "general").2.1 (by decide),
   (claim_C6 envTwoKeys stTwoKeys "general").2.2 ["b", "a"] (by decide)⟩

/-- Claim C8: for a valid schema, every key returned by the declared-key
enumeration passes `gnc_gsettings_is_valid_key`, and consequently a
whole `gnc_gsettings_reset_schema` run writes nothing to the error log
(the invalid-key branch inside `gnc_gsettings_reset` is unreachable for
the enumerated keys). -/
theorem claim_C8 (env : GSEnv) (st : GSState) (schema : String)
    (h : (gnc_gsettings_get_schema_ptr env st (some schema)).1.valid
          = true) :
    (∀ k ∈ declaredKeys env st schema,
       gnc_gsettings_is_valid_key env
         (gnc_gsettings_get_schema_ptr env st (some schema)).1 k = true) ∧
    (gnc_gsettings_reset_schema env st schema).log = st.log := by
  have hlk : g_settings_list_keys env
        (gnc_gsettings_get_schema_ptr env st (some schema)).1
      = some (env.schemaKeys
          (gnc_gsettings_get_schema_ptr env st (some schema)).1.name) := by
    simp [g_settings_list_keys, h]
  have hdk : declaredKeys env st schema
      = env.schemaKeys
          (gnc_gsettings_get_schema_ptr env st (some schema)).1.name := by
    simp [declaredKeys, hlk]
  have hc := get_schema_ptr_cached_of_valid env st (some schema) h
  constructor
  · intro k hk
    rw [hdk] at hk
    exact is_valid_key_of_mem env _ k h hk
  · have hrs : gnc_gsettings_reset_schema env st schema
        = (env.schemaKeys
            (gnc_gsettings_get_schema_ptr env st
              (some schema)).1.name).foldl
            (fun s k => gnc_gsettings_reset env s schema k)
            (gnc_gsettings_get_schema_ptr env st (some schema)).2 := by
      simp [gnc_gsettings_reset_schema, hlk]
    rw [hrs, fold_reset_closed env schema
        (gnc_gsettings_get_schema_ptr env st (some schema)).1 h _
        (gnc_gsettings_get_schema_ptr env st (some schema)).2 hc
        (fun k hk => hk)]
    exact get_schema_ptr_log_of_valid env st (some schema) h

/-- Witness for claim C8 at the two-key schema, whose declared keys
are both valid and whose reset run leaves the (empty) log empty. -/
theorem claim_C8_witness :
    (∀ k ∈ declaredKeys envTwoKeys stTwoKeys "general",
       gnc_gsettings_is_valid_key envTwoKeys
         (gnc_gsettings_get_schema_ptr envTwoKeys stTwoKeys
           (some "general")).1 k = true) ∧
    (gnc_gsettings_reset_schema envTwoKeys stTwoKeys "general").log
      = stTwoKeys.log :=
  claim_C8 envTwoKeys stTwoKeys "general" (by decide)

/-- Claim C1 (code bug): `gnc_gsettings_remove_cb_by_func` is supposed
to detach exactly the registrations matching all three of (detail built
from the key, callback, user-data), but the C expression at
gnc-gsettings.c:208 combines the match flags with the logical-OR
operator, which evaluates to 1 = `G_SIGNAL_MATCH_ID`; together with the
`signal_id` argument 0 this matches no connected handler.  At the
concrete failing input below, a registration matching all three
criteria of the specification is left connected. -/
theorem claim_C1_bug :
    removeMatchMask = G_SIGNAL_MATCH_ID ∧
    specMatchesAllThree ptrGeneral (some "window.width") 5 9 hdlWidth
      = true ∧
    hdlWidth ∈ stWithHandler.handlers ∧
    (gnc_gsettings_remove_cb_by_func envEx stWithHandler (some "general")
        (some "window.width") 5 9).handlers = stWithHandler.handlers := by
  refine ⟨rfl, by decide, by decide, by decide⟩

/-- Claim C7 (code bug): the migration driver is supposed to log and
return without touching the new store when a required input is missing,
but the C function performs no checks at all: with the stylesheet
absent (its parse yields NULL) the driver still opens and writes the
output, loads the generated script and evaluates `run-migration`; and
with the scratch directory absent it passes the NULL `FILE*` from the
failed `fopen` straight to `fclose` (undefined behaviour).  Neither
path is an early logged return. -/
theorem claim_C7_bug :
    MigrEvent.parseStylesheet
        "/usr/share/gnucash/make-prefs-migration-script.xsl" false
      ∈ gnc_gsettings_migrate_from_gconf envMigrNoStylesheet ∧
    MigrEvent.loadScript "/home/u/.gnc-migration-tmp/migrate-prefs-user.scm"
      ∈ gnc_gsettings_migrate_from_gconf envMigrNoStylesheet ∧
    MigrEvent.evalRunMigration
      ∈ gnc_gsettings_migrate_from_gconf envMigrNoStylesheet ∧
    MigrEvent.closeOutput true
      ∈ gnc_gsettings_migrate_from_gconf envMigrNoOutput := by
  refine ⟨by decide, by decide, by decide, by decide⟩

end GncGSettings
